import Mathlib

/-!
Verification of the NC Secretary of State business-document fetcher
(nc_business_doc_fetcher.py) against its design specification.

The Python module is shallowly embedded below: HTML pages are modelled as
already-parsed documents (the view BeautifulSoup exposes to the code),
the network is an oracle mapping a URL and an attempt index to either a
parsed response body or an error string, and wall-clock sleeps are
recorded as an explicit event trace.  All strings are treated at the
level of their character lists; the model is faithful for ASCII input,
which is the only input exercised here.
-/

namespace Scrapper

/-! ## Character-list string utilities -/

/-- Lowercases every character of a string (models Python str.lower for ASCII). -/
def lowerStr (s : String) : String := ⟨s.data.map Char.toLower⟩

/-- Tests whether pat occurs at the head of hay. -/
def leadsWith : List Char → List Char → Bool
  | _, [] => true
  | [], _ :: _ => false
  | a :: as, b :: bs => a == b && leadsWith as bs

/-- Tests whether pat occurs anywhere inside hay (substring containment). -/
def hasSub (hay pat : List Char) : Bool :=
  match hay with
  | [] => pat.isEmpty
  | _ :: rest => leadsWith hay pat || hasSub rest pat

/-- Substring containment on strings. -/
def strContains (hay pat : String) : Bool := hasSub hay.data pat.data

/-- Suffix test on strings (models Python str.endswith). -/
def strEndsWith (s pat : String) : Bool := leadsWith s.data.reverse pat.data.reverse

/-- Prefix test on strings (models Python str.startswith). -/
def strStartsWith (s pat : String) : Bool := leadsWith s.data pat.data

/-- Index of the first occurrence of pat in hay, if any. -/
def findSubIdx (hay pat : List Char) : Option Nat :=
  match hay with
  | [] => if pat.isEmpty then some 0 else none
  | _ :: rest =>
    if leadsWith hay pat then some 0
    else (findSubIdx rest pat).map (· + 1)

/-! ## Model of urllib.parse.urljoin

The source resolves hrefs with urllib.parse.urljoin.  The model below
reproduces its behaviour on the URL shapes that occur in this program:
an empty href (returns the base unchanged), an href that itself carries
a scheme (returned as is), a root-relative href beginning with a slash
(appended to the scheme-and-host origin of the base), and a plain
relative href (appended to the directory of the base path). -/

/-- Scheme-and-host origin of a URL: everything up to the first slash after
the scheme separator. -/
def urlOrigin (base : String) : String :=
  match findSubIdx base.data "://".data with
  | none => base
  | some i =>
    let afterScheme := i + 3
    let rest := base.data.drop afterScheme
    match rest.findIdx? (· = '/') with
    | none => base
    | some j => ⟨base.data.take (afterScheme + j)⟩

/-- Directory part of a URL: the base with the last path segment removed,
keeping the trailing slash; a URL with no path component gains one. -/
def urlDir (base : String) : String :=
  match findSubIdx base.data "://".data with
  | none => base ++ "/"
  | some i =>
    let afterScheme := i + 3
    let rest := base.data.drop afterScheme
    match rest.findIdx? (· = '/') with
    | none => base ++ "/"
    | some _ =>
      let lastSlash := (base.data.length - 1) - (base.data.reverse.findIdx (· = '/'))
      ⟨base.data.take (lastSlash + 1)⟩

/-- Models urllib.parse.urljoin restricted to the URL shapes this program
feeds it (empty, absolute with scheme, root-relative, relative). -/
def urljoin (base url : String) : String :=
  if url = "" then base
  else if strContains url "://" then url
  else if strStartsWith url "/" then urlOrigin base ++ url
  else urlDir base ++ url

/-! ## Parsed-HTML model

The code hands every fetched page to BeautifulSoup and then only ever
looks at tables (class and id attributes, tr rows, td cells, the first
anchor of a cell) and at the list of all anchor elements.  A document is
therefore modelled as exactly those two views, each in document order;
get_text with strip is modelled by the stored text of an element. -/

/-- An anchor element: its href attribute when present, and its stripped
text content. -/
structure Anchor where
  href? : Option String
  text : String
deriving DecidableEq, Repr

/-- A td cell: the first anchor descendant found by find applied to the
cell, when one exists, and the stripped text of the cell. -/
structure Cell where
  anchor? : Option Anchor
  text : String
deriving DecidableEq, Repr

/-- A tr row as the list of its td cells. -/
structure Row where
  cells : List Cell
deriving DecidableEq, Repr

/-- A table element: its full class attribute string when present, its id
attribute when present, and its rows in document order (find_all tr). -/
structure Table where
  classAttr? : Option String
  idAttr? : Option String
  rows : List Row
deriving DecidableEq, Repr

/-- A parsed HTML document: its tables in document order and all of its
anchor elements in document order (find_all a). -/
structure HtmlDoc where
  tables : List Table
  anchors : List Anchor
deriving DecidableEq, Repr

/-! ## Data model of the source module -/

/-- Mirrors the BusinessRecord dataclass.  The pdf_documents field is
constructed with its default (the empty list); the source module never
assigns to it after construction (grep shows the field is mentioned only
at its declaration), so every embedded operation below leaves it as
built. -/
structure BusinessRecord where
  entity_name : String
  sos_identifier : String
  status_text : String
  date_registered : String
  detail_link : String
  pdf_documents : List String := []
deriving DecidableEq, Repr

/-- Mirrors the ScraperConfiguration dataclass with its defaults; the
request delay is a rational standing in for the Python float 1.5. -/
structure ScraperConfiguration where
  target_base_url : String := "https://www.sosnc.gov"
  search_endpoint : String := "/online_services/search/by_title/_Business_Registration"
  storage_directory : String := "./fetched_documents"
  request_delay_seconds : ℚ := 3/2
  connection_timeout : Nat := 30
  max_retry_attempts : Nat := 3
  http_user_agent : String := "NCBusinessDocFetcher/1.0"
deriving DecidableEq, Repr

/-- Constant FILENAME_MAX_LENGTH of the source module. -/
def FILENAME_MAX_LENGTH : Nat := 50

/-! ## ResultExtractor: _extract_business_records -/

/-- Decides whether a table matches find("table", class regex .*result.*
with re.I).  BeautifulSoup searches the regex in the class attribute
value, so a table matches exactly when it has a class attribute whose
lowercased text contains "result"; a table without the attribute never
matches. -/
def tableClassMatches (t : Table) : Bool :=
  match t.classAttr? with
  | none => false
  | some c => strContains (lowerStr c) "result"

/-- Decides whether a table matches the fallback find("table", id regex
.*search.* with re.I). -/
def tableIdMatches (t : Table) : Bool :=
  match t.idAttr? with
  | none => false
  | some i => strContains (lowerStr i) "search"

/-- Locates the results table: the first table whose class matches the
result pattern, else the first table whose id matches the search
pattern, else none (lines 155 to 161 of the source). -/
def find_result_table (doc : HtmlDoc) : Option Table :=
  match doc.tables.find? tableClassMatches with
  | some t => some t
  | none => doc.tables.find? tableIdMatches

/-- Embeds one iteration of the row loop of _extract_business_records
(lines 165 to 179): a row with at least three cells whose first cell
holds an anchor yields a record; any other row yields none. -/
def row_record (cfg : ScraperConfiguration) (row : Row) : Option BusinessRecord :=
  match row.cells with
  | c0 :: c1 :: c2 :: rest =>
    match c0.anchor? with
    | some link_element =>
      some { entity_name := link_element.text
             sos_identifier := c1.text
             status_text := c2.text
             date_registered := ((rest.head?).map Cell.text).getD ""
             detail_link := urljoin cfg.target_base_url (link_element.href?.getD "") }
    | none => none
  | _ => none

/-- Embeds _extract_business_records: locate the results table, skip the
first row as a header, and collect the records of the remaining rows. -/
def extract_business_records (cfg : ScraperConfiguration) (doc : HtmlDoc) :
    List BusinessRecord :=
  match find_result_table doc with
  | none => []
  | some result_table => (result_table.rows.drop 1).filterMap (row_record cfg)

/-! ## DocumentLinkExtractor: _locate_pdf_links -/

/-- Body of the link loop of _locate_pdf_links (lines 221 to 226): keep a
link whose href lowercased ends with ".pdf", resolved against the base
URL, unless the resolved URL was already collected. -/
def pdf_step (cfg : ScraperConfiguration) (pdf_urls : List String) (link : Anchor) :
    List String :=
  let href := link.href?.getD ""
  if strEndsWith (lowerStr href) ".pdf" then
    let full_url := urljoin cfg.target_base_url href
    if pdf_urls.contains full_url then pdf_urls else pdf_urls ++ [full_url]
  else pdf_urls

/-- Embeds _locate_pdf_links (lines 214 to 229): scan all anchors having
an href attribute and fold the selection step over them. -/
def locate_pdf_links (cfg : ScraperConfiguration) (doc : HtmlDoc) : List String :=
  (doc.anchors.filter (fun a => a.href?.isSome)).foldl (pdf_step cfg) []

/-- Appends an element unless already present: the membership test the
source loop performs on the accumulated URLs. -/
def dedup_step (acc : List String) (x : String) : List String :=
  if acc.contains x then acc else acc ++ [x]

/-- First-seen-order deduplication by exact string equality. -/
def dedupKeepFirst (l : List String) : List String := l.foldl dedup_step []

/-- Path component of an href: the target stripped of its query and
fragment parts.  Used only to state the specification wording of the
link selector, for comparison with the code. -/
def hrefPath (href : String) : String :=
  ⟨href.data.takeWhile (fun c => c ≠ '?' && c ≠ '#')⟩

/-- Modelled from the spec: the selection the specification describes for
DocumentLinkExtractor, selecting hyperlink targets whose PATH ends in the
.pdf extension case-insensitively, resolved against the base URL, in
first-seen order with exact-string duplicates dropped.  Stated only to
compare with locate_pdf_links, which tests the whole href string. -/
def spec_pdf_selection (cfg : ScraperConfiguration) (doc : HtmlDoc) : List String :=
  dedupKeepFirst
    (((doc.anchors.filterMap Anchor.href?).filter
        (fun h => strEndsWith (lowerStr (hrefPath h)) ".pdf")).map
      (urljoin cfg.target_base_url))

/-! ## MD5 (RFC 1321), used by the Downloader for the URL hash tag

The source computes hashlib.md5(pdf_url.encode()).hexdigest()[:8].  The
reference MD5 algorithm is embedded below over natural numbers, with
32-bit wraparound made explicit by reduction modulo 2 to the 32. -/

/-- Combines two naturals bit by bit with the given single-bit operation,
over the given number of low bits. -/
def bitCombine (f : Nat → Nat → Nat) : Nat → Nat → Nat → Nat
  | 0, _, _ => 0
  | n + 1, x, y => f (x % 2) (y % 2) + 2 * bitCombine f n (x / 2) (y / 2)

/-- Bitwise AND on 32 bits. -/
def land32 (x y : Nat) : Nat := bitCombine (fun a b => a * b) 32 x y

/-- Bitwise OR on 32 bits. -/
def lor32 (x y : Nat) : Nat := bitCombine (fun a b => a + b - a * b) 32 x y

/-- Bitwise XOR on 32 bits. -/
def lxor32 (x y : Nat) : Nat := bitCombine (fun a b => (a + b) % 2) 32 x y

/-- Bitwise NOT on 32 bits. -/
def not32 (x : Nat) : Nat := 4294967295 - (x % 4294967296)

/-- Left rotation of a 32-bit value by n bits (n at most 32). -/
def rotl32 (x n : Nat) : Nat :=
  ((x % 4294967296) % 2 ^ (32 - n)) * 2 ^ n + (x % 4294967296) / 2 ^ (32 - n)

/-- The 64 MD5 sine-derived constants. -/
def md5K : List Nat :=
  [0xd76aa478, 0xe8c7b756, 0x242070db, 0xc1bdceee,
   0xf57c0faf, 0x4787c62a, 0xa8304613, 0xfd469501,
   0x698098d8, 0x8b44f7af, 0xffff5bb1, 0x895cd7be,
   0x6b901122, 0xfd987193, 0xa679438e, 0x49b40821,
   0xf61e2562, 0xc040b340, 0x265e5a51, 0xe9b6c7aa,
   0xd62f105d, 0x02441453, 0xd8a1e681, 0xe7d3fbc8,
   0x21e1cde6, 0xc33707d6, 0xf4d50d87, 0x455a14ed,
   0xa9e3e905, 0xfcefa3f8, 0x676f02d9, 0x8d2a4c8a,
   0xfffa3942, 0x8771f681, 0x6d9d6122, 0xfde5380c,
   0xa4beea44, 0x4bdecfa9, 0xf6bb4b60, 0xbebfbc70,
   0x289b7ec6, 0xeaa127fa, 0xd4ef3085, 0x04881d05,
   0xd9d4d039, 0xe6db99e5, 0x1fa27cf8, 0xc4ac5665,
   0xf4292244, 0x432aff97, 0xab9423a7, 0xfc93a039,
   0x655b59c3, 0x8f0ccc92, 0xffeff47d, 0x85845dd1,
   0x6fa87e4f, 0xfe2ce6e0, 0xa3014314, 0x4e0811a1,
   0xf7537e82, 0xbd3af235, 0x2ad7d2bb, 0xeb86d391]

/-- The 64 MD5 per-operation rotation amounts. -/
def md5S : List Nat :=
  [7, 12, 17, 22, 7, 12, 17, 22, 7, 12, 17, 22, 7, 12, 17, 22,
   5, 9, 14, 20, 5, 9, 14, 20, 5, 9, 14, 20, 5, 9, 14, 20,
   4, 11, 16, 23, 4, 11, 16, 23, 4, 11, 16, 23, 4, 11, 16, 23,
   6, 10, 15, 21, 6, 10, 15, 21, 6, 10, 15, 21, 6, 10, 15, 21]

/-- Little-endian 32-bit word number j of a 64-byte block. -/
def leWord (block : List Nat) (j : Nat) : Nat :=
  block.getD (4 * j) 0 + 256 * block.getD (4 * j + 1) 0 +
    65536 * block.getD (4 * j + 2) 0 + 16777216 * block.getD (4 * j + 3) 0

/-- One of the 64 MD5 operations on the running state (A, B, C, D). -/
def md5Step (M : Nat → Nat) (st : Nat × Nat × Nat × Nat) (i : Nat) :
    Nat × Nat × Nat × Nat :=
  let A := st.1
  let B := st.2.1
  let C := st.2.2.1
  let D := st.2.2.2
  let F :=
    if i < 16 then lor32 (land32 B C) (land32 (not32 B) D)
    else if i < 32 then lor32 (land32 D B) (land32 (not32 D) C)
    else if i < 48 then lxor32 (lxor32 B C) D
    else lxor32 C (lor32 B (not32 D))
  let g :=
    if i < 16 then i % 16
    else if i < 32 then (5 * i + 1) % 16
    else if i < 48 then (3 * i + 5) % 16
    else (7 * i) % 16
  let mixed := (F + A + md5K.getD i 0 + M g) % 4294967296
  (D, (B + rotl32 mixed (md5S.getD i 0)) % 4294967296, B, C)

/-- Processes one 64-byte block into the MD5 chaining state. -/
def md5Block (st : Nat × Nat × Nat × Nat) (block : List Nat) :
    Nat × Nat × Nat × Nat :=
  let r := (List.range 64).foldl (md5Step (leWord block)) st
  ((st.1 + r.1) % 4294967296, (st.2.1 + r.2.1) % 4294967296,
   (st.2.2.1 + r.2.2.1) % 4294967296, (st.2.2.2 + r.2.2.2) % 4294967296)

/-- The MD5 initial chaining state. -/
def md5Init : Nat × Nat × Nat × Nat := (0x67452301, 0xefcdab89, 0x98badcfe, 0x10325476)

/-- Splits a byte list into consecutive 64-byte blocks, with fuel for
structural recursion; fuel at least the list length is always enough
since every step consumes at least one element. -/
def chunksAux : Nat → List Nat → List (List Nat)
  | _, [] => []
  | 0, _ :: _ => []
  | fuel + 1, a :: t => ((a :: t).take 64) :: chunksAux fuel ((a :: t).drop 64)

/-- Splits a byte list into consecutive 64-byte blocks. -/
def chunks64 (l : List Nat) : List (List Nat) := chunksAux l.length l

/-- MD5 padding: a 0x80 byte, zeros to 56 modulo 64, then the bit length
in 8 little-endian bytes. -/
def md5Pad (msg : List Nat) : List Nat :=
  let len := msg.length
  let padZeros := (119 - len % 64) % 64
  let bitLen := 8 * len
  msg ++ 0x80 :: List.replicate padZeros 0 ++
    [bitLen % 256, bitLen / 256 % 256, bitLen / 65536 % 256,
     bitLen / 16777216 % 256, bitLen / 4294967296 % 256,
     bitLen / 1099511627776 % 256, bitLen / 281474976710656 % 256,
     bitLen / 72057594037927936 % 256]

/-- Little-endian byte rendering of a 32-bit word. -/
def wordLE (w : Nat) : List Nat :=
  [w % 256, w / 256 % 256, w / 65536 % 256, w / 16777216 % 256]

/-- The 16-byte MD5 digest of a byte message. -/
def md5Bytes (msg : List Nat) : List Nat :=
  let st := (chunks64 (md5Pad msg)).foldl md5Block md5Init
  wordLE st.1 ++ wordLE st.2.1 ++ wordLE st.2.2.1 ++ wordLE st.2.2.2

/-- Lowercase hex rendering of a digest, two characters per byte. -/
def bytesToHex (bytes : List Nat) : String :=
  ⟨bytes.flatMap (fun b => [Nat.digitChar (b / 16 % 16), Nat.digitChar (b % 16)])⟩

/-- UTF-8 bytes of a string, for the ASCII strings this program hashes
(models str.encode). -/
def strBytes (s : String) : List Nat := s.data.map Char.toNat

/-- The hexdigest of hashlib.md5 on a string. -/
def md5Hexdigest (s : String) : String := bytesToHex (md5Bytes (strBytes s))

/-! ## Downloader naming: _download_pdf_file (lines 231 to 248) -/

/-- Character class kept by re.sub with pattern excluding word characters,
whitespace and hyphen: word characters (letters, digits, underscore),
whitespace, and hyphen survive; everything else is removed. -/
def keepNameChar (c : Char) : Bool :=
  c.isAlphanum || c == '_' || c.isWhitespace || c == '-'

/-- Embeds the safe_name computation of _download_pdf_file: strip the
disallowed characters, then truncate to FILENAME_MAX_LENGTH. -/
def safe_name_of (business_name : String) : String :=
  ⟨(business_name.data.filter keepNameChar).take FILENAME_MAX_LENGTH⟩

/-- Embeds the url_hash computation: the first 8 characters of the MD5
hexdigest of the document URL. -/
def url_hash_of (pdf_url : String) : String :=
  ⟨(md5Hexdigest pdf_url).data.take 8⟩

/-- Wall-clock timestamp as sampled by datetime.now at download time. -/
structure Timestamp where
  year : Nat
  month : Nat
  day : Nat
  hour : Nat
  minute : Nat
  second : Nat
deriving DecidableEq, Repr

/-- Two-digit zero-padded decimal rendering, as produced by strftime for
the in-range field values datetime supplies. -/
def pad2 (n : Nat) : List Char := [Nat.digitChar (n / 10 % 10), Nat.digitChar (n % 10)]

/-- Four-digit zero-padded decimal rendering of the year. -/
def pad4 (n : Nat) : List Char :=
  [Nat.digitChar (n / 1000 % 10), Nat.digitChar (n / 100 % 10),
   Nat.digitChar (n / 10 % 10), Nat.digitChar (n % 10)]

/-- Embeds strftime with format year month day underscore hour minute
second, as used for the filename timestamp. -/
def strftime_timestamp (t : Timestamp) : String :=
  ⟨pad4 t.year ++ pad2 t.month ++ pad2 t.day ++ '_' ::
    (pad2 t.hour ++ pad2 t.minute ++ pad2 t.second)⟩

/-- Embeds the filename computation of _download_pdf_file: sanitized name,
URL hash tag and timestamp joined by underscores, with the pdf
extension. -/
def download_filename (business_name pdf_url ts : String) : String :=
  safe_name_of business_name ++ "_" ++ url_hash_of pdf_url ++ "_" ++ ts ++ ".pdf"

/-! ## Transport: _perform_request (lines 102 to 120)

The network is an oracle giving, for a URL and a 0-based attempt index,
the outcome of session.get followed by raise_for_status: a parsed
response document, or the message of the requests exception raised.
Calls to time.sleep are recorded as an explicit trace of sleep events. -/

/-- One recorded call to time.sleep: the fixed politeness delay slept
before every attempt, or the escalating backoff slept before a retry. -/
inductive SleepEvt where
  | politeness (seconds : ℚ)
  | backoff (seconds : Nat)
deriving DecidableEq, Repr

/-- Network oracle: outcome of the HTTP GET for a URL at an attempt index. -/
def NetOracle : Type := String → Nat → Except String HtmlDoc

/-- Embeds the recursion of _perform_request.  The extra fuel argument is
maintained equal to max_retry_attempts minus retry_count, so the source
guard retry_count less than max_retry_attempts is exactly the test that
fuel is nonzero; fuel only makes the recursion structural and never cuts
an iteration the source would perform. -/
def perform_request_go (cfg : ScraperConfiguration) (net : NetOracle)
    (target_url : String) : Nat → Nat → List SleepEvt × Except String HtmlDoc
  | retry_count, fuel =>
    match net target_url retry_count with
    | .ok response => ([.politeness cfg.request_delay_seconds], .ok response)
    | .error req_error =>
      match fuel with
      | fuel' + 1 =>
        let rest := perform_request_go cfg net target_url (retry_count + 1) fuel'
        (.politeness cfg.request_delay_seconds ::
          .backoff ((retry_count + 1) * 2) :: rest.1, rest.2)
      | 0 =>
        ([.politeness cfg.request_delay_seconds],
         .error ("Request failed after retries: " ++ req_error))

/-- Embeds _perform_request: sleep the politeness delay, attempt the GET,
and on failure with retry_count below max_retry_attempts sleep the
backoff of (retry_count + 1) * 2 seconds and retry; after exhausting the
retries raise SearchOperationError wrapping the last error.  Returns the
sleep trace together with the outcome. -/
def perform_request (cfg : ScraperConfiguration) (net : NetOracle)
    (target_url : String) (retry_count : Nat) :
    List SleepEvt × Except String HtmlDoc :=
  perform_request_go cfg net target_url retry_count
    (cfg.max_retry_attempts - retry_count)

/-- Outcome of one full _perform_request call chain starting at attempt 0. -/
def transport (cfg : ScraperConfiguration) (net : NetOracle) (url : String) :
    Except String HtmlDoc :=
  (perform_request cfg net url 0).2

/-- Sleep trace of one full _perform_request call chain from attempt 0. -/
def transport_sleeps (cfg : ScraperConfiguration) (net : NetOracle) (url : String) :
    List SleepEvt :=
  (perform_request cfg net url 0).1

/-! ## Pipeline: search_businesses, fetch_business_documents,
_download_pdf_file and process_search_and_download -/

/-- Percent-encoding of one character as urllib.parse.quote_plus performs
it for ASCII input: space becomes plus, unreserved characters pass
through, everything else becomes a percent escape in uppercase hex. -/
def quotePlusChar (c : Char) : List Char :=
  if c = ' ' then ['+']
  else if c.isAlphanum || c = '_' || c = '-' || c = '.' || c = '~' then [c]
  else
    ['%', if c.toNat / 16 % 16 < 10 then Nat.digitChar (c.toNat / 16 % 16)
          else Char.ofNat (55 + c.toNat / 16 % 16),
     if c.toNat % 16 < 10 then Nat.digitChar (c.toNat % 16)
     else Char.ofNat (55 + c.toNat % 16)]

/-- Models urlencode applied to the single Words parameter. -/
def urlencode_words (query_term : String) : String :=
  "Words=" ++ ⟨query_term.data.flatMap quotePlusChar⟩

/-- The full search URL built by search_businesses (lines 134 to 140). -/
def full_search_url (cfg : ScraperConfiguration) (query_term : String) : String :=
  urljoin cfg.target_base_url cfg.search_endpoint ++ "?" ++ urlencode_words query_term

/-- Embeds search_businesses: fetch the search URL through the transport
and extract the records; any raised error is wrapped into
SearchOperationError with the Unable-to-search message (lines 142 to
147). -/
def search_businesses (cfg : ScraperConfiguration) (net : NetOracle)
    (query_term : String) : Except String (List BusinessRecord) :=
  match transport cfg net (full_search_url cfg query_term) with
  | .ok response => .ok (extract_business_records cfg response)
  | .error err => .error ("Unable to search: " ++ err)

/-- Embeds _download_pdf_file: fetch the document URL through the
transport; on success the file is written and the saved path returned,
on failure DocumentRetrievalError wraps the error (lines 231 to 251).
The timestamp string is the strftime rendering sampled at this call. -/
def download_pdf_file (cfg : ScraperConfiguration) (net : NetOracle)
    (pdf_url business_name ts : String) : Except String String :=
  match transport cfg net pdf_url with
  | .error err => .error ("PDF download failed: " ++ err)
  | .ok _ => .ok (cfg.storage_directory ++ "/" ++ download_filename business_name pdf_url ts)

/-- Clock oracle: the wall-clock timestamp observed at the n-th successful
document download of the run (datetime.now is called once per download). -/
def ClockOracle : Type := Nat → Timestamp

/-- Body of the per-link download loop of fetch_business_documents: try
the download, appending the saved path on success and skipping the link
on DocumentRetrievalError (lines 201 to 206). -/
def download_step (cfg : ScraperConfiguration) (net : NetOracle)
    (clock : ClockOracle) (business : BusinessRecord)
    (acc : List String × Nat) (pdf_url : String) : List String × Nat :=
  match download_pdf_file cfg net pdf_url business.entity_name
      (strftime_timestamp (clock acc.2)) with
  | .ok saved_path => (acc.1 ++ [saved_path], acc.2 + 1)
  | .error _ => acc

/-- Embeds fetch_business_documents (lines 184 to 212): fetch the detail
page; on any failure return no paths; on success locate the pdf links
and download each, skipping the ones whose download fails.  The natural
number threads the count of downloads already performed, indexing the
clock oracle. -/
def fetch_business_documents (cfg : ScraperConfiguration) (net : NetOracle)
    (clock : ClockOracle) (dl_count : Nat) (business : BusinessRecord) :
    List String × Nat :=
  match transport cfg net business.detail_link with
  | .error _ => ([], dl_count)
  | .ok response =>
    (locate_pdf_links cfg response).foldl
      (download_step cfg net clock business) ([], dl_count)

/-- Mirrors the results_summary dictionary returned by
process_search_and_download. -/
structure ResultsSummary where
  search_query : String
  businesses_found : Nat
  documents_downloaded : Nat
  downloaded_files : List String
  errors : List String
deriving DecidableEq, Repr

/-- Body of the per-business loop of process_search_and_download (lines
275 to 278): fetch the documents of one business and add their count and
paths to the running summary, threading the download counter for the
clock oracle.  The business value itself is read, never written. -/
def pipeline_step (cfg : ScraperConfiguration) (net : NetOracle)
    (clock : ClockOracle) (st : ResultsSummary × Nat) (business : BusinessRecord) :
    ResultsSummary × Nat :=
  let r := fetch_business_documents cfg net clock st.2 business
  ({ st.1 with
      documents_downloaded := st.1.documents_downloaded + r.1.length
      downloaded_files := st.1.downloaded_files ++ r.1 }, r.2)

/-- Embeds process_search_and_download (lines 253 to 283): run the search;
a SearchOperationError becomes the single entry of the errors list and
nothing else runs; otherwise record the business count and accumulate,
business by business, the downloaded paths and their count. -/
def process_search_and_download (cfg : ScraperConfiguration) (net : NetOracle)
    (clock : ClockOracle) (search_query : String) : ResultsSummary :=
  match search_businesses cfg net search_query with
  | .error search_err =>
    { search_query := search_query
      businesses_found := 0
      documents_downloaded := 0
      downloaded_files := []
      errors := [search_err] }
  | .ok businesses =>
    (businesses.foldl (pipeline_step cfg net clock)
      ({ search_query := search_query
         businesses_found := businesses.length
         documents_downloaded := 0
         downloaded_files := []
         errors := [] }, 0)).1

/-! ## Expected sleep trace of the transport

perform_request starting at attempt j and performing k failed attempts
before stopping sleeps, in order: the politeness delay, the backoff of
the first retry, the politeness delay again, and so on, ending with the
politeness delay of the final attempt. -/

/-- The sleep trace of a run of _perform_request that starts at attempt
index j and performs k retries: a politeness sleep before every attempt
and a backoff of (attempt index + 1) * 2 seconds before each retry. -/
def retrySleeps (cfg : ScraperConfiguration) : Nat → Nat → List SleepEvt
  | _, 0 => [.politeness cfg.request_delay_seconds]
  | j, k + 1 =>
    .politeness cfg.request_delay_seconds ::
      .backoff ((j + 1) * 2) :: retrySleeps cfg (j + 1) k

/-- The backoff durations appearing in a sleep trace, in order. -/
def backoffsOf (trace : List SleepEvt) : List Nat :=
  trace.filterMap (fun evt =>
    match evt with
    | .backoff s => some s
    | .politeness _ => none)

/-- Decides whether a sleep event is a politeness sleep of the given
duration. -/
def isPolitenessOf (d : ℚ) (evt : SleepEvt) : Bool :=
  match evt with
  | .politeness s => s == d
  | .backoff _ => false

/-! ## Concrete fixtures used by witnesses and counterexamples -/

/-- The default configuration, as built by ScraperConfiguration(). -/
def cfg0 : ScraperConfiguration := {}

/-- A constant clock fixture. -/
def clock0 : ClockOracle := fun _ => ⟨2026, 10, 12, 9, 5, 3⟩

/-- A page with no tables and no anchors. -/
def emptyDoc : HtmlDoc := ⟨[], []⟩

/-- Header row of the search-results fixture. -/
def headerRow : Row := ⟨[⟨none, "Name"⟩, ⟨none, "Id"⟩, ⟨none, "Status"⟩, ⟨none, "Date"⟩]⟩

/-- Data row of the search-results fixture: a linked name plus three text
cells. -/
def dataRow : Row :=
  ⟨[⟨some ⟨some "/corp/1", "Acme LLC"⟩, "Acme LLC"⟩, ⟨none, "12345678"⟩,
    ⟨none, "Active"⟩, ⟨none, "2020-06-15"⟩]⟩

/-- The results table of the search fixture: class resultsTable, one
header row and one data row. -/
def searchTable : Table := ⟨some "resultsTable", none, [headerRow, dataRow]⟩

/-- A search-results page carrying only the fixture results table. -/
def searchDoc : HtmlDoc := ⟨[searchTable], []⟩

/-- The record the extractor produces from the data row of searchDoc. -/
def rec0 : BusinessRecord :=
  ⟨"Acme LLC", "12345678", "Active", "2020-06-15", "https://www.sosnc.gov/corp/1", []⟩

/-- A detail page with a single pdf link. -/
def detailDoc : HtmlDoc := ⟨[], [⟨some "/d/a.pdf", "Download"⟩]⟩

/-- The detail page of scenario B: pdf links a.pdf, B.PDF and a duplicate
of a.pdf. -/
def scenarioBDoc : HtmlDoc :=
  ⟨[], [⟨some "/d/a.pdf", "one"⟩, ⟨some "/d/B.PDF", "two"⟩, ⟨some "/d/a.pdf", "dup"⟩]⟩

/-- A detail page whose single link carries a query string after the .pdf
path. -/
def queryLinkDoc : HtmlDoc := ⟨[], [⟨some "/d/a.pdf?v=1", "x"⟩]⟩

/-- A network that fails every attempt for every URL. -/
def netFail : NetOracle := fun _ _ => .error "boom"

/-- A network for scenario D: the search URL resolves, every other URL
(in particular the detail page of the one business found) fails all
attempts. -/
def netScenD : NetOracle := fun url _ =>
  if url = full_search_url cfg0 "acme" then .ok searchDoc else .error "down"

/-- A network where the first attempt fails and every later attempt
succeeds with the empty page. -/
def netSecond : NetOracle := fun _ n =>
  if n = 0 then .error "first down" else .ok emptyDoc

/-- A network for the mixed-download scenario: the detail page of rec0
resolves to a page with two pdf links, the first pdf fails all attempts,
the second succeeds. -/
def netMix : NetOracle := fun url _ =>
  if url = rec0.detail_link then
    .ok ⟨[], [⟨some "/d/a.pdf", "one"⟩, ⟨some "/d/b.pdf", "two"⟩]⟩
  else if url = "https://www.sosnc.gov/d/a.pdf" then .error "down"
  else .ok emptyDoc

/-- A network for the successful-detail-fetch scenario of the record
lifecycle: the search URL resolves to searchDoc and the detail page of
rec0 resolves to detailDoc. -/
def netDetailOk : NetOracle := fun url _ =>
  if url = full_search_url cfg0 "acme" then .ok searchDoc
  else if url = rec0.detail_link then .ok detailDoc
  else .error "down"

/-! ## Helper lemmas -/

/-- A run of the retry loop whose first k attempts from index j fail and
whose attempt j + k succeeds returns that response with the expected
sleep trace, for any sufficient fuel. -/
lemma go_success (cfg : ScraperConfiguration) (net : NetOracle) (url : String)
    (r : HtmlDoc) :
    ∀ (k j fuel : Nat), k ≤ fuel →
      (∀ i, i < k → ∃ e, net url (j + i) = .error e) →
      net url (j + k) = .ok r →
      perform_request_go cfg net url j fuel = (retrySleeps cfg j k, .ok r) := by
  intro k
  induction k with
  | zero =>
    intro j fuel _ _ hs
    rw [Nat.add_zero] at hs
    unfold perform_request_go
    rw [hs]
    rfl
  | succ k ih =>
    intro j fuel hk hf hs
    obtain ⟨e, he⟩ := hf 0 (Nat.succ_pos k)
    rw [Nat.add_zero] at he
    cases fuel with
    | zero => omega
    | succ f =>
      have hrest := ih (j + 1) f (by omega)
        (fun i hi => by
          have h' := hf (i + 1) (by omega)
          rwa [show j + (i + 1) = j + 1 + i by omega] at h')
        (by rwa [show j + (k + 1) = j + 1 + k by omega] at hs)
      unfold perform_request_go
      rw [he]
      simp only [hrest]
      rfl

/-- A run of the retry loop whose every attempt from index j through
j + fuel fails exhausts its fuel and raises the retries-exhausted error
wrapping the last underlying error, with the expected sleep trace. -/
lemma go_allfail (cfg : ScraperConfiguration) (net : NetOracle) (url : String) :
    ∀ (fuel j : Nat), (∀ i, i ≤ fuel → ∃ e, net url (j + i) = .error e) →
      ∃ e, net url (j + fuel) = .error e ∧
        perform_request_go cfg net url j fuel =
          (retrySleeps cfg j fuel, .error ("Request failed after retries: " ++ e)) := by
  intro fuel
  induction fuel with
  | zero =>
    intro j h
    obtain ⟨e, he⟩ := h 0 (Nat.le_refl 0)
    rw [Nat.add_zero] at he
    refine ⟨e, by rwa [Nat.add_zero], ?_⟩
    unfold perform_request_go
    rw [he]
    rfl
  | succ f ih =>
    intro j h
    obtain ⟨e0, he0⟩ := h 0 (Nat.zero_le _)
    rw [Nat.add_zero] at he0
    obtain ⟨e, he, hgo⟩ := ih (j + 1)
      (fun i hi => by
        have h' := h (i + 1) (by omega)
        rwa [show j + (i + 1) = j + 1 + i by omega] at h')
    refine ⟨e, by rwa [show j + 1 + f = j + (f + 1) by omega] at he, ?_⟩
    unfold perform_request_go
    rw [he0]
    simp only [hgo]
    rfl

/-- The per-business loop never touches the errors list. -/
lemma foldl_pipeline_errors (cfg : ScraperConfiguration) (net : NetOracle)
    (clock : ClockOracle) :
    ∀ (l : List BusinessRecord) (st : ResultsSummary × Nat),
      (l.foldl (pipeline_step cfg net clock) st).1.errors = st.1.errors := by
  intro l
  induction l with
  | nil => intro st; rfl
  | cons b t ih => intro st; rw [List.foldl_cons, ih]; rfl

/-- The per-business loop never touches the businesses-found count. -/
lemma foldl_pipeline_found (cfg : ScraperConfiguration) (net : NetOracle)
    (clock : ClockOracle) :
    ∀ (l : List BusinessRecord) (st : ResultsSummary × Nat),
      (l.foldl (pipeline_step cfg net clock) st).1.businesses_found =
        st.1.businesses_found := by
  intro l
  induction l with
  | nil => intro st; rfl
  | cons b t ih => intro st; rw [List.foldl_cons, ih]; rfl

/-- The per-business loop never touches the stored search query. -/
lemma foldl_pipeline_query (cfg : ScraperConfiguration) (net : NetOracle)
    (clock : ClockOracle) :
    ∀ (l : List BusinessRecord) (st : ResultsSummary × Nat),
      (l.foldl (pipeline_step cfg net clock) st).1.search_query =
        st.1.search_query := by
  intro l
  induction l with
  | nil => intro st; rfl
  | cons b t ih => intro st; rw [List.foldl_cons, ih]; rfl

/-- The per-business loop preserves the invariant that the download count
equals the length of the collected path list. -/
lemma foldl_pipeline_dd (cfg : ScraperConfiguration) (net : NetOracle)
    (clock : ClockOracle) :
    ∀ (l : List BusinessRecord) (st : ResultsSummary × Nat),
      st.1.documents_downloaded = st.1.downloaded_files.length →
      (l.foldl (pipeline_step cfg net clock) st).1.documents_downloaded =
        (l.foldl (pipeline_step cfg net clock) st).1.downloaded_files.length := by
  intro l
  induction l with
  | nil => intro st h; exact h
  | cons b t ih =>
    intro st h
    rw [List.foldl_cons]
    exact ih _ (by simp [pipeline_step, h])

/-- The per-link loop collects one path per link whose transport fetch
succeeds and skips every link whose fetch fails. -/
lemma foldl_download_length (cfg : ScraperConfiguration) (net : NetOracle)
    (clock : ClockOracle) (business : BusinessRecord) :
    ∀ (links : List String) (acc : List String × Nat),
      (links.foldl (download_step cfg net clock business) acc).1.length =
        acc.1.length +
          links.countP (fun u => (transport cfg net u).toOption.isSome) := by
  intro links
  induction links with
  | nil => intro acc; simp
  | cons u t ih =>
    intro acc
    rw [List.foldl_cons, List.countP_cons]
    cases htr : transport cfg net u with
    | error e =>
      have hstep : download_step cfg net clock business acc u = acc := by
        simp [download_step, download_pdf_file, htr]
      rw [hstep, ih]
      simp [htr, Except.toOption]
    | ok resp =>
      have hstep : download_step cfg net clock business acc u =
          (acc.1 ++ [cfg.storage_directory ++ "/" ++
            download_filename business.entity_name u
              (strftime_timestamp (clock acc.2))], acc.2 + 1) := by
        simp [download_step, download_pdf_file, htr]
      rw [hstep, ih]
      simp [htr, Except.toOption]
      omega

/-- The selection loop of _locate_pdf_links computes, for any starting
accumulator, the deduplicating fold of the resolved URLs of the hrefs
ending in ".pdf". -/
lemma locate_aux (cfg : ScraperConfiguration) :
    ∀ (anchors : List Anchor) (acc : List String),
      ((anchors.filter (fun a => a.href?.isSome)).foldl (pdf_step cfg) acc) =
        ((((anchors.filterMap Anchor.href?).filter
            (fun h => strEndsWith (lowerStr h) ".pdf")).map
          (urljoin cfg.target_base_url)).foldl dedup_step acc) := by
  intro anchors
  induction anchors with
  | nil => intro acc; rfl
  | cons a t ih =>
    intro acc
    cases ha : a.href? with
    | none =>
      simp only [List.filter_cons, List.filterMap_cons, ha, Option.isSome_none,
        Bool.false_eq_true, if_false]
      exact ih acc
    | some h =>
      simp only [List.filter_cons, List.filterMap_cons, ha, Option.isSome_some, if_true]
      by_cases hp : strEndsWith (lowerStr h) ".pdf"
      · rw [List.foldl_cons]
        have hstep : pdf_step cfg acc a = dedup_step acc (urljoin cfg.target_base_url h) := by
          simp [pdf_step, dedup_step, ha, hp]
        rw [hstep]
        simp only [hp, if_true, List.map_cons, List.foldl_cons]
        exact ih _
      · rw [List.foldl_cons]
        have hstep : pdf_step cfg acc a = acc := by
          simp [pdf_step, ha, hp]
        rw [hstep]
        simp only [hp, Bool.false_eq_true, if_false]
        exact ih acc

/-- An MD5 digest always consists of 16 bytes. -/
lemma md5Bytes_length (msg : List Nat) : (md5Bytes msg).length = 16 := by
  simp [md5Bytes, wordLE]

/-- The hex rendering spends two characters per byte. -/
lemma bytesToHex_data_length (bytes : List Nat) :
    (bytesToHex bytes).data.length = 2 * bytes.length := by
  show (bytes.flatMap _).length = 2 * bytes.length
  induction bytes with
  | nil => rfl
  | cons b t ih =>
    rw [List.flatMap_cons, List.length_append, ih]
    simp
    omega

/-- An MD5 hexdigest has 32 characters. -/
lemma md5Hexdigest_data_length (s : String) : (md5Hexdigest s).data.length = 32 := by
  rw [md5Hexdigest, bytesToHex_data_length, md5Bytes_length]

/-- The URL hash tag has exactly 8 characters. -/
lemma url_hash_of_length (u : String) : (url_hash_of u).length = 8 := by
  show ((md5Hexdigest u).data.take 8).length = 8
  rw [List.length_take, md5Hexdigest_data_length]
  decide

/-- Every character of a hex rendering is a decimal digit or one of the
six lowercase hex letters. -/
lemma bytesToHex_chars (bytes : List Nat) :
    ∀ c ∈ (bytesToHex bytes).data,
      c.isDigit = true ∨ c ∈ (['a', 'b', 'c', 'd', 'e', 'f'] : List Char) := by
  intro c hc
  have hc' : c ∈ bytes.flatMap
      (fun b => [Nat.digitChar (b / 16 % 16), Nat.digitChar (b % 16)]) := hc
  obtain ⟨b, _, hmem⟩ := List.mem_flatMap.1 hc'
  have hx : ∃ n, n < 16 ∧ c = Nat.digitChar n := by
    simp only [List.mem_cons, List.not_mem_nil, or_false] at hmem
    rcases hmem with h | h
    · exact ⟨b / 16 % 16, Nat.mod_lt _ (by omega), h⟩
    · exact ⟨b % 16, Nat.mod_lt _ (by omega), h⟩
  obtain ⟨n, hn, rfl⟩ := hx
  interval_cases n <;> decide

/-- Every character of the URL hash tag is a hex character. -/
lemma url_hash_of_chars (u : String) :
    ∀ c ∈ (url_hash_of u).data,
      c.isDigit = true ∨ c ∈ (['a', 'b', 'c', 'd', 'e', 'f'] : List Char) := by
  intro c hc
  exact bytesToHex_chars _ c (List.mem_of_mem_take hc)

/-- Every character surviving sanitization lies in the kept class. -/
lemma safe_name_of_chars (n : String) :
    ∀ c ∈ (safe_name_of n).data, keepNameChar c = true := by
  intro c hc
  exact List.of_mem_filter (List.mem_of_mem_take hc)

/-- The sanitized name never exceeds the maximum length. -/
lemma safe_name_of_length (n : String) :
    (safe_name_of n).length ≤ FILENAME_MAX_LENGTH := by
  show ((n.data.filter keepNameChar).take FILENAME_MAX_LENGTH).length ≤ _
  rw [List.length_take]
  omega

/-- The strftime rendering of a timestamp always has 15 characters. -/
lemma strftime_timestamp_length (t : Timestamp) :
    (strftime_timestamp t).length = 15 := by
  show (pad4 t.year ++ pad2 t.month ++ pad2 t.day ++ '_' ::
    (pad2 t.hour ++ pad2 t.minute ++ pad2 t.second)).length = 15
  simp [pad4, pad2]

/-- The filename length is the sanitized-name length plus the fixed
14-character scaffolding plus the timestamp length. -/
lemma download_filename_length (b u ts : String) :
    (download_filename b u ts).length = (safe_name_of b).length + ts.length + 14 := by
  have h4 : (".pdf" : String).length = 4 := rfl
  have h1 : ("_" : String).length = 1 := rfl
  rw [download_filename, String.length_append, String.length_append,
    String.length_append, String.length_append, String.length_append,
    url_hash_of_length, h4, h1]
  omega

/-- Filenames built from distinct hash tags are distinct, whatever the
shared name and timestamp. -/
lemma download_filename_hash_inj (b u1 u2 ts : String)
    (h : url_hash_of u1 ≠ url_hash_of u2) :
    download_filename b u1 ts ≠ download_filename b u2 ts := by
  intro heq
  apply h
  have hd := congrArg String.data heq
  simp only [download_filename, String.data_append] at hd
  have hd1 := List.append_cancel_right hd
  have hd2 := List.append_cancel_right hd1
  have hd3 := List.append_cancel_right hd2
  have hd4 := List.append_cancel_left hd3
  exact String.ext hd4

/-- A record produced by the row loop always carries an empty
pdf_documents list. -/
lemma row_record_pdf_empty (cfg : ScraperConfiguration) (row : Row)
    (b : BusinessRecord) (h : row_record cfg row = some b) :
    b.pdf_documents = [] := by
  rcases row with ⟨cells⟩
  rcases cells with _ | ⟨c0, _ | ⟨c1, _ | ⟨c2, rest⟩⟩⟩
  · simp [row_record] at h
  · simp [row_record] at h
  · simp [row_record] at h
  · rcases ha : c0.anchor? with _ | a
    · simp [row_record, ha] at h
    · simp only [row_record, ha] at h
      cases h
      rfl

/-- Every record the extractor returns carries an empty pdf_documents
list. -/
lemma extract_pdf_empty (cfg : ScraperConfiguration) (doc : HtmlDoc) :
    ∀ b ∈ extract_business_records cfg doc, b.pdf_documents = [] := by
  intro b hb
  unfold extract_business_records at hb
  cases hft : find_result_table doc with
  | none => rw [hft] at hb; simp at hb
  | some t =>
    rw [hft] at hb
    obtain ⟨row, _, hrr⟩ := List.mem_filterMap.1 hb
    exact row_record_pdf_empty cfg row b hrr

/-- The backoff durations of a trace starting at attempt j with k
retries are (j + 1) * 2 through (j + k) * 2 in order. -/
lemma backoffsOf_retrySleeps (cfg : ScraperConfiguration) :
    ∀ (k j : Nat), backoffsOf (retrySleeps cfg j k) =
      (List.range k).map (fun i => (j + i + 1) * 2) := by
  intro k
  induction k with
  | zero => intro j; rfl
  | succ k ih =>
    intro j
    have hstep : backoffsOf (retrySleeps cfg j (k + 1)) =
        (j + 1) * 2 :: backoffsOf (retrySleeps cfg (j + 1) k) := rfl
    have hfun : (fun i => (j + 1 + i + 1) * 2) =
        ((fun i => (j + i + 1) * 2) ∘ Nat.succ) := by
      funext i
      simp [Function.comp, Nat.succ_eq_add_one]
      ring
    rw [hstep, ih (j + 1), List.range_succ_eq_map, List.map_cons, List.map_map, hfun]

/-- A trace with k retries contains exactly k + 1 politeness sleeps of
the configured delay: one before every attempt. -/
lemma countP_politeness_retrySleeps (cfg : ScraperConfiguration) :
    ∀ (k j : Nat),
      (retrySleeps cfg j k).countP (isPolitenessOf cfg.request_delay_seconds) = k + 1 := by
  intro k
  induction k with
  | zero => simp [retrySleeps, isPolitenessOf, List.countP_cons]
  | succ k ih =>
    intro j
    show (SleepEvt.politeness _ :: .backoff _ :: retrySleeps cfg (j + 1) k).countP _ = _
    rw [List.countP_cons, List.countP_cons, ih (j + 1)]
    simp [isPolitenessOf]

/-- The backoffs of a trace are strictly increasing. -/
lemma backoffs_pairwise (cfg : ScraperConfiguration) (k : Nat) :
    (backoffsOf (retrySleeps cfg 0 k)).Pairwise (· < ·) := by
  rw [backoffsOf_retrySleeps]
  exact List.Pairwise.map _ (fun a b h => by omega) (List.pairwise_lt_range k)

/-- A list occurs at the head of itself followed by anything. -/
lemma leadsWith_append : ∀ (l t : List Char), leadsWith (l ++ t) l = true := by
  intro l
  induction l with
  | nil => intro t; cases t <;> rfl
  | cons c r ih => intro t; simp [leadsWith, ih]

/-- A pattern occurs inside any string that ends with it. -/
lemma hasSub_suffix : ∀ (a b : List Char), hasSub (a ++ b) b = true := by
  intro a
  induction a with
  | nil =>
    intro b
    rw [List.nil_append]
    cases b with
    | nil => rfl
    | cons c r =>
      show (leadsWith (c :: r) (c :: r) || hasSub r (c :: r)) = true
      have h := leadsWith_append (c :: r) []
      rw [List.append_nil] at h
      rw [h, Bool.true_or]
  | cons x xs ih =>
    intro b
    show (leadsWith (x :: (xs ++ b)) b || hasSub (xs ++ b) b) = true
    rw [ih b, Bool.or_true]

/-! ## Claims -/

/-- C4: the result extractor never fails and filters degenerate input to
zero records: when no table matches the class pattern and none matches
the id fallback, extraction returns the empty list; when a results table
is located, the first row is skipped and the remaining rows are folded
through the row extractor; a row with fewer than 3 cells contributes no
record; a row with at least 3 cells but no anchor in its first cell
contributes no record. -/
theorem claim_C4 :
    (∀ (cfg : ScraperConfiguration) (doc : HtmlDoc),
        (∀ t ∈ doc.tables, tableClassMatches t = false ∧ tableIdMatches t = false) →
        extract_business_records cfg doc = [])
    ∧ (∀ (cfg : ScraperConfiguration) (doc : HtmlDoc) (t : Table),
        find_result_table doc = some t →
        extract_business_records cfg doc = (t.rows.drop 1).filterMap (row_record cfg))
    ∧ (∀ (cfg : ScraperConfiguration) (row : Row),
        row.cells.length < 3 → row_record cfg row = none)
    ∧ (∀ (cfg : ScraperConfiguration) (c0 c1 c2 : Cell) (rest : List Cell),
        c0.anchor? = none → row_record cfg ⟨c0 :: c1 :: c2 :: rest⟩ = none) := by
  refine ⟨?_, ?_, ?_, ?_⟩
  · intro cfg doc h
    have h1 : doc.tables.find? tableClassMatches = none :=
      List.find?_eq_none.2 (fun t ht => by simp [(h t ht).1])
    have h2 : doc.tables.find? tableIdMatches = none :=
      List.find?_eq_none.2 (fun t ht => by simp [(h t ht).2])
    unfold extract_business_records find_result_table
    rw [h1, h2]
  · intro cfg doc t h
    unfold extract_business_records
    rw [h]
  · intro cfg row h
    rcases row with ⟨cells⟩
    rcases cells with _ | ⟨a, _ | ⟨b, _ | ⟨c, rest⟩⟩⟩
    · rfl
    · rfl
    · rfl
    · exact absurd h (by simp)
  · intro cfg c0 c1 c2 rest h
    simp [row_record, h]

/-- Witness for C4 at concrete inputs: a page without tables extracts to
nothing, the fixture search page extracts through its located table with
the header skipped, a one-cell row yields no record, and a three-cell
row without a link yields no record. -/
theorem claim_C4_witness :
    extract_business_records cfg0 emptyDoc = [] ∧
    extract_business_records cfg0 searchDoc =
      ((searchTable.rows.drop 1).filterMap (row_record cfg0)) ∧
    row_record cfg0 ⟨[⟨none, "only"⟩]⟩ = none ∧
    row_record cfg0 ⟨[⟨none, "a"⟩, ⟨none, "b"⟩, ⟨none, "c"⟩]⟩ = none := by
  refine ⟨claim_C4.1 cfg0 emptyDoc ?_,
    claim_C4.2.1 cfg0 searchDoc searchTable (by rfl),
    claim_C4.2.2.1 cfg0 ⟨[⟨none, "only"⟩]⟩ (by decide),
    claim_C4.2.2.2 cfg0 ⟨none, "a"⟩ ⟨none, "b"⟩ ⟨none, "c"⟩ [] rfl⟩
  intro t ht
  simp [emptyDoc] at ht

/-- C10: a row with at least 3 cells whose first cell holds an anchor
without an href still produces a record, and its detail link is the
configured base URL, the result of resolving the empty string against
it: the presence of the anchor element decides record production. -/
theorem claim_C10 :
    ∀ (cfg : ScraperConfiguration) (c0 c1 c2 : Cell) (rest : List Cell) (a : Anchor),
      c0.anchor? = some a → a.href? = none →
      row_record cfg ⟨c0 :: c1 :: c2 :: rest⟩ =
        some { entity_name := a.text
               sos_identifier := c1.text
               status_text := c2.text
               date_registered := ((rest.head?).map Cell.text).getD ""
               detail_link := cfg.target_base_url
               pdf_documents := [] } := by
  intro cfg c0 c1 c2 rest a h1 h2
  have hjoin : urljoin cfg.target_base_url "" = cfg.target_base_url := by
    simp [urljoin]
  simp [row_record, h1, h2, hjoin]

/-- Witness for C10: a concrete three-cell row whose first cell holds an
href-less anchor produces a record pointing at the default base URL. -/
theorem claim_C10_witness :
    row_record cfg0
        ⟨[⟨some ⟨none, "NoHref Inc"⟩, "NoHref Inc"⟩, ⟨none, "1"⟩, ⟨none, "Active"⟩]⟩ =
      some { entity_name := "NoHref Inc"
             sos_identifier := "1"
             status_text := "Active"
             date_registered := ""
             detail_link := cfg0.target_base_url
             pdf_documents := [] } :=
  claim_C10 cfg0 ⟨some ⟨none, "NoHref Inc"⟩, "NoHref Inc"⟩ ⟨none, "1"⟩ ⟨none, "Active"⟩ []
    ⟨none, "NoHref Inc"⟩ rfl rfl

/-- C9: the outcome of every pipeline run satisfies the invariant that
the downloaded count equals the length of the downloaded-files list,
whatever the network and clock do. -/
theorem claim_C9 :
    ∀ (cfg : ScraperConfiguration) (net : NetOracle) (clock : ClockOracle) (q : String),
      (process_search_and_download cfg net clock q).documents_downloaded =
        (process_search_and_download cfg net clock q).downloaded_files.length := by
  intro cfg net clock q
  rcases hs : search_businesses cfg net q with e | businesses
  · simp [process_search_and_download, hs]
  · simp only [process_search_and_download, hs]
    exact foldl_pipeline_dd cfg net clock businesses _ rfl

/-- C5 counterexample: the code tests the whole href string, not its
path.  For a link whose path ends in ".pdf" but whose query string does
not, the claimed path-based selection keeps the link while the code
drops it. -/
theorem claim_C5_counterexample :
    locate_pdf_links cfg0 queryLinkDoc = [] ∧
    spec_pdf_selection cfg0 queryLinkDoc = ["https://www.sosnc.gov/d/a.pdf?v=1"] ∧
    locate_pdf_links cfg0 queryLinkDoc ≠ spec_pdf_selection cfg0 queryLinkDoc := by
  refine ⟨rfl, rfl, by decide⟩

/-- C5 as amended: the extractor returns exactly the hyperlink targets
whose href STRING ends in ".pdf" case-insensitively, resolved against
the base URL, in first-seen order with exact-string duplicates dropped;
and on scenario B it yields the two expected absolute URLs with the
duplicate dropped. -/
theorem claim_C5 :
    (∀ (cfg : ScraperConfiguration) (doc : HtmlDoc),
        locate_pdf_links cfg doc =
          dedupKeepFirst (((doc.anchors.filterMap Anchor.href?).filter
              (fun h => strEndsWith (lowerStr h) ".pdf")).map
            (urljoin cfg.target_base_url)))
    ∧ locate_pdf_links cfg0 scenarioBDoc =
        ["https://www.sosnc.gov/d/a.pdf", "https://www.sosnc.gov/d/B.PDF"] := by
  exact ⟨fun cfg doc => locate_aux cfg doc.anchors [], rfl⟩

/-- C1: only search-step failures reach the outcome error list.  A
transport failure on the search URL terminates the run with zero
businesses, zero downloads, no files and exactly one error message; a
successful search leaves the error list empty whatever happens later,
with the found count reported; one business whose detail fetch fails
yields the one-business zero-download zero-error outcome; and within a
business, each document link contributes a path exactly when its own
fetch succeeds, so one failed download skips only itself. -/
theorem claim_C1 :
    (∀ (cfg : ScraperConfiguration) (net : NetOracle) (clock : ClockOracle) (q e : String),
        transport cfg net (full_search_url cfg q) = .error e →
        process_search_and_download cfg net clock q =
          { search_query := q, businesses_found := 0, documents_downloaded := 0,
            downloaded_files := [], errors := ["Unable to search: " ++ e] })
    ∧ (∀ (cfg : ScraperConfiguration) (net : NetOracle) (clock : ClockOracle)
          (q : String) (bs : List BusinessRecord),
        search_businesses cfg net q = .ok bs →
        (process_search_and_download cfg net clock q).errors = [] ∧
        (process_search_and_download cfg net clock q).businesses_found = bs.length)
    ∧ (∀ (cfg : ScraperConfiguration) (net : NetOracle) (clock : ClockOracle)
          (q e : String) (b : BusinessRecord),
        search_businesses cfg net q = .ok [b] →
        transport cfg net b.detail_link = .error e →
        process_search_and_download cfg net clock q =
          { search_query := q, businesses_found := 1, documents_downloaded := 0,
            downloaded_files := [], errors := [] })
    ∧ (∀ (cfg : ScraperConfiguration) (net : NetOracle) (clock : ClockOracle)
          (dl : Nat) (b : BusinessRecord) (response : HtmlDoc),
        transport cfg net b.detail_link = .ok response →
        (fetch_business_documents cfg net clock dl b).1.length =
          (locate_pdf_links cfg response).countP
            (fun u => (transport cfg net u).toOption.isSome)) := by
  refine ⟨?_, ?_, ?_, ?_⟩
  · intro cfg net clock q e h
    have hsb : search_businesses cfg net q =
        .error ("Unable to search: " ++ e) := by
      simp [search_businesses, h]
    simp [process_search_and_download, hsb]
  · intro cfg net clock q bs h
    constructor
    · simp only [process_search_and_download, h]
      rw [foldl_pipeline_errors]
    · simp only [process_search_and_download, h]
      rw [foldl_pipeline_found]
  · intro cfg net clock q e b h1 h2
    have hfb : fetch_business_documents cfg net clock 0 b = ([], 0) := by
      simp [fetch_business_documents, h2]
    simp only [process_search_and_download, h1, List.foldl_cons, List.foldl_nil]
    simp [pipeline_step, hfb]
  · intro cfg net clock dl b response h
    simp only [fetch_business_documents, h]
    rw [foldl_download_length]
    simp

/-- Witness for C1: a network that always fails gives the single-error
empty outcome; the scenario-D network gives the one-business
zero-download zero-error outcome; and on a detail page with two links of
which exactly the second resolves, exactly one path is collected. -/
theorem claim_C1_witness :
    process_search_and_download cfg0 netFail clock0 "acme" =
      { search_query := "acme", businesses_found := 0, documents_downloaded := 0,
        downloaded_files := [],
        errors := ["Unable to search: " ++ ("Request failed after retries: " ++ "boom")] }
    ∧ process_search_and_download cfg0 netScenD clock0 "acme" =
        { search_query := "acme", businesses_found := 1, documents_downloaded := 0,
          downloaded_files := [], errors := [] }
    ∧ (fetch_business_documents cfg0 netMix clock0 0 rec0).1.length =
        (locate_pdf_links cfg0
            ⟨[], [⟨some "/d/a.pdf", "one"⟩, ⟨some "/d/b.pdf", "two"⟩]⟩).countP
          (fun u => (transport cfg0 netMix u).toOption.isSome) :=
  ⟨claim_C1.1 cfg0 netFail clock0 "acme"
      ("Request failed after retries: " ++ "boom") rfl,
   claim_C1.2.2.1 cfg0 netScenD clock0 "acme"
      ("Request failed after retries: " ++ "down") rec0 rfl rfl,
   claim_C1.2.2.2 cfg0 netMix clock0 0 rec0
      ⟨[], [⟨some "/d/a.pdf", "one"⟩, ⟨some "/d/b.pdf", "two"⟩]⟩ rfl⟩

/-- C3 counterexample: the claimed population of pdf_documents never
happens.  In a run whose search finds the fixture record and whose
detail fetch SUCCEEDS and discovers one document URL, the record the
pipeline holds still carries an empty pdf_documents; the source never
assigns that field after construction (it appears only at its dataclass
declaration), and the embedded pipeline passes each record to
fetch_business_documents read-only. -/
theorem claim_C3_counterexample :
    extract_business_records cfg0 searchDoc = [rec0] ∧
    transport cfg0 netDetailOk rec0.detail_link = .ok detailDoc ∧
    locate_pdf_links cfg0 detailDoc = ["https://www.sosnc.gov/d/a.pdf"] ∧
    rec0.pdf_documents = [] ∧
    rec0.pdf_documents ≠ ["https://www.sosnc.gov/d/a.pdf"] :=
  ⟨rfl, rfl, rfl, rfl, by decide⟩

/-- C3 as amended: pdf_documents is never populated at all.  Every
record the row extractor or the full extractor produces carries an empty
pdf_documents list, and no operation of the module writes the field, so
it stays empty for the lifetime of the run. -/
theorem claim_C3 :
    (∀ (cfg : ScraperConfiguration) (row : Row) (b : BusinessRecord),
        row_record cfg row = some b → b.pdf_documents = [])
    ∧ (∀ (cfg : ScraperConfiguration) (doc : HtmlDoc),
        ∀ b ∈ extract_business_records cfg doc, b.pdf_documents = []) :=
  ⟨fun cfg row b h => row_record_pdf_empty cfg row b h,
   fun cfg doc => extract_pdf_empty cfg doc⟩

/-- Witness for C3: the fixture data row produces rec0, whose
pdf_documents is empty. -/
theorem claim_C3_witness : rec0.pdf_documents = [] :=
  claim_C3.1 cfg0 dataRow rec0 rfl

/-- C2: the transport sleeps the fixed politeness delay before every
attempt including each retry; a run that succeeds on attempt k performs
no further attempt and returns that response with backoffs 2, 4, ... up
to 2k; a run whose attempts all fail performs exactly
max_retry_attempts retries and then fails; the backoff before the i-th
retry is i * 2 seconds, strictly increasing; and each trace holds one
politeness sleep per attempt. -/
theorem claim_C2 :
    (∀ (cfg : ScraperConfiguration) (net : NetOracle) (url : String) (r : HtmlDoc)
        (k : Nat),
        k ≤ cfg.max_retry_attempts →
        (∀ i, i < k → ∃ e, net url i = .error e) →
        net url k = .ok r →
        perform_request cfg net url 0 = (retrySleeps cfg 0 k, .ok r))
    ∧ (∀ (cfg : ScraperConfiguration) (net : NetOracle) (url : String),
        (∀ i, i ≤ cfg.max_retry_attempts → ∃ e, net url i = .error e) →
        ∃ e, net url cfg.max_retry_attempts = .error e ∧
          perform_request cfg net url 0 =
            (retrySleeps cfg 0 cfg.max_retry_attempts,
             .error ("Request failed after retries: " ++ e)))
    ∧ (∀ (cfg : ScraperConfiguration) (k : Nat),
        backoffsOf (retrySleeps cfg 0 k) =
          (List.range k).map (fun i => (i + 1) * 2))
    ∧ (∀ (cfg : ScraperConfiguration) (k : Nat),
        (retrySleeps cfg 0 k).countP (isPolitenessOf cfg.request_delay_seconds) = k + 1)
    ∧ (∀ (cfg : ScraperConfiguration) (k : Nat),
        (backoffsOf (retrySleeps cfg 0 k)).Pairwise (· < ·)) := by
  refine ⟨?_, ?_, ?_, ?_, ?_⟩
  · intro cfg net url r k hk hf hs
    unfold perform_request
    rw [Nat.sub_zero]
    exact go_success cfg net url r k 0 cfg.max_retry_attempts hk
      (fun i hi => by simpa using hf i hi) (by simpa using hs)
  · intro cfg net url h
    obtain ⟨e, he, hgo⟩ := go_allfail cfg net url cfg.max_retry_attempts 0
      (fun i hi => by simpa using h i hi)
    refine ⟨e, by simpa using he, ?_⟩
    unfold perform_request
    rw [Nat.sub_zero, hgo]
  · intro cfg k
    rw [backoffsOf_retrySleeps]
    simp
  · intro cfg k
    exact countP_politeness_retrySleeps cfg k 0
  · intro cfg k
    exact backoffs_pairwise cfg k

/-- Witness for C2: with the default configuration, a network failing
only its first attempt gives the single-retry trace ending in success,
and a network failing every attempt exhausts all three retries and
fails. -/
theorem claim_C2_witness :
    perform_request cfg0 netSecond "https://x" 0 = (retrySleeps cfg0 0 1, .ok emptyDoc)
    ∧ ∃ e, netFail "https://x" cfg0.max_retry_attempts = .error e ∧
        perform_request cfg0 netFail "https://x" 0 =
          (retrySleeps cfg0 0 cfg0.max_retry_attempts,
           .error ("Request failed after retries: " ++ e)) := by
  refine ⟨claim_C2.1 cfg0 netSecond "https://x" emptyDoc 1 (by decide) ?_ rfl,
    claim_C2.2.1 cfg0 netFail "https://x" (fun i _ => ⟨"boom", rfl⟩)⟩
  intro i hi
  have h0 : i = 0 := by omega
  subst h0
  exact ⟨"first down", rfl⟩

/-- C8 counterexample: the error raised after exhausting retries wraps
only the last underlying error, not the URL attempted.  With an
underlying error whose text does not mention the URL, the raised message
does not contain the URL. -/
theorem claim_C8_counterexample :
    transport cfg0 netFail "https://www.sosnc.gov/x" =
      .error ("Request failed after retries: " ++ "boom") ∧
    strContains ("Request failed after retries: " ++ "boom")
      "https://www.sosnc.gov/x" = false :=
  ⟨rfl, by decide⟩

/-- C8 as amended: after exhausting its retries for a URL the transport
fails with an error wrapping the last underlying error (the message
contains it verbatim), and returns no response; the URL appears in the
message only if the underlying error text carries it. -/
theorem claim_C8 :
    (∀ (cfg : ScraperConfiguration) (net : NetOracle) (url : String),
        (∀ i, i ≤ cfg.max_retry_attempts → ∃ e, net url i = .error e) →
        ∃ e, net url cfg.max_retry_attempts = .error e ∧
          transport cfg net url = .error ("Request failed after retries: " ++ e))
    ∧ (∀ e : String, strContains ("Request failed after retries: " ++ e) e = true) := by
  constructor
  · intro cfg net url h
    obtain ⟨e, he, hgo⟩ := go_allfail cfg net url cfg.max_retry_attempts 0
      (fun i hi => by simpa using h i hi)
    refine ⟨e, by simpa using he, ?_⟩
    unfold transport perform_request
    rw [Nat.sub_zero, hgo]
  · intro e
    show hasSub (("Request failed after retries: " : String).data ++ e.data) e.data = true
    exact hasSub_suffix _ _

/-- Witness for C8: the always-failing network exhausts its retries on a
concrete URL and the raised error wraps the last underlying error. -/
theorem claim_C8_witness :
    ∃ e, netFail "https://www.sosnc.gov/x" cfg0.max_retry_attempts = .error e ∧
      transport cfg0 netFail "https://www.sosnc.gov/x" =
        .error ("Request failed after retries: " ++ e) :=
  claim_C8.1 cfg0 netFail "https://www.sosnc.gov/x" (fun _ _ => ⟨"boom", rfl⟩)

/-- C6 counterexample: the sanitizer keeps underscores, which the claim
excludes.  The pattern removed by re.sub spares every word character,
and underscore is a word character, so a business name containing an
underscore yields a sanitized component that is not made of letters,
digits, whitespace and hyphens only. -/
theorem claim_C6_counterexample :
    safe_name_of "A_B" = "A_B" ∧
    '_' ∈ ("A_B" : String).data ∧
    ¬(('_' : Char).isAlpha = true ∨ ('_' : Char).isDigit = true ∨
      ('_' : Char).isWhitespace = true ∨ ('_' : Char) = '-') :=
  ⟨rfl, by decide, by decide⟩

/-- C6 as amended: the filename has the form sanitized-name,
8-hex-hash and timestamp joined by underscores with the pdf extension;
the sanitized component holds only letters, digits, UNDERSCORES,
whitespace and hyphens, truncated to 50 characters; the hash tag is 8
hex characters; the timestamp renders to 15 characters; and the
filename length is the sanitized-name length plus the fixed suffix
length 29, hence at most 79. -/
theorem claim_C6 :
    ∀ (business_name pdf_url : String) (t : Timestamp),
      download_filename business_name pdf_url (strftime_timestamp t) =
        safe_name_of business_name ++ "_" ++ url_hash_of pdf_url ++ "_" ++
          strftime_timestamp t ++ ".pdf"
      ∧ (∀ c ∈ (safe_name_of business_name).data,
          c.isAlphanum = true ∨ c = '_' ∨ c.isWhitespace = true ∨ c = '-')
      ∧ (safe_name_of business_name).length ≤ FILENAME_MAX_LENGTH
      ∧ (url_hash_of pdf_url).length = 8
      ∧ (∀ c ∈ (url_hash_of pdf_url).data,
          c.isDigit = true ∨ c ∈ (['a', 'b', 'c', 'd', 'e', 'f'] : List Char))
      ∧ (strftime_timestamp t).length = 15
      ∧ (download_filename business_name pdf_url (strftime_timestamp t)).length =
          (safe_name_of business_name).length + 29
      ∧ (download_filename business_name pdf_url (strftime_timestamp t)).length ≤
          FILENAME_MAX_LENGTH + 29 := by
  intro n u t
  have hlen : (download_filename n u (strftime_timestamp t)).length =
      (safe_name_of n).length + 29 := by
    rw [download_filename_length, strftime_timestamp_length]
  refine ⟨rfl, ?_, safe_name_of_length n, url_hash_of_length u, url_hash_of_chars u,
    strftime_timestamp_length t, hlen, ?_⟩
  · intro c hc
    have h := safe_name_of_chars n c hc
    simp only [keepNameChar, Bool.or_eq_true, beq_iff_eq] at h
    tauto
  · rw [hlen]
    have := safe_name_of_length n
    omega

/-- Witness for C6 at a concrete name, URL and timestamp. -/
theorem claim_C6_witness :
    (download_filename "Acme Corp" "https://www.sosnc.gov/doc/7759.pdf"
        (strftime_timestamp ⟨2026, 10, 12, 9, 5, 3⟩)).length =
      (safe_name_of "Acme Corp").length + 29
    ∧ (('A' : Char).isAlphanum = true ∨ ('A' : Char) = '_' ∨
        ('A' : Char).isWhitespace = true ∨ ('A' : Char) = '-') :=
  ⟨(claim_C6 "Acme Corp" "https://www.sosnc.gov/doc/7759.pdf"
      ⟨2026, 10, 12, 9, 5, 3⟩).2.2.2.2.2.2.1,
   (claim_C6 "Acme Corp" "https://www.sosnc.gov/doc/7759.pdf"
      ⟨2026, 10, 12, 9, 5, 3⟩).2.1 'A' (by decide)⟩

set_option maxRecDepth 400000 in
/-- C7 counterexample: the hash tag keeps only the first 8 hex
characters of the MD5 digest, so distinct URLs can share it.  These two
distinct document URLs have MD5 digests agreeing on their first 8 hex
characters, and for the same business in the same second the two
download calls target exactly the same filename. -/
theorem claim_C7_counterexample :
    ("https://www.sosnc.gov/doc/7759.pdf" : String) ≠
      "https://www.sosnc.gov/doc/30678.pdf" ∧
    download_filename "Acme Corp" "https://www.sosnc.gov/doc/7759.pdf"
        (strftime_timestamp ⟨2026, 10, 12, 9, 5, 3⟩) =
      download_filename "Acme Corp" "https://www.sosnc.gov/doc/30678.pdf"
        (strftime_timestamp ⟨2026, 10, 12, 9, 5, 3⟩) :=
  ⟨by decide, by decide⟩

/-- C7 as amended: for two distinct source URLs whose 8-character hash
tags differ, the filenames differ, whatever the shared business name and
timestamp; the hash component is what differentiates them. -/
theorem claim_C7 :
    ∀ (business_name u1 u2 ts : String),
      url_hash_of u1 ≠ url_hash_of u2 →
      download_filename business_name u1 ts ≠ download_filename business_name u2 ts :=
  fun business_name u1 u2 ts h => download_filename_hash_inj business_name u1 u2 ts h

set_option maxRecDepth 400000 in
/-- Witness for C7: two concrete URLs with distinct hash tags give
distinct filenames for the same business and second. -/
theorem claim_C7_witness :
    download_filename "Acme Corp" "https://www.sosnc.gov/a.pdf"
        (strftime_timestamp ⟨2026, 10, 12, 9, 5, 3⟩) ≠
      download_filename "Acme Corp" "https://www.sosnc.gov/b.pdf"
        (strftime_timestamp ⟨2026, 10, 12, 9, 5, 3⟩) :=
  claim_C7 "Acme Corp" "https://www.sosnc.gov/a.pdf" "https://www.sosnc.gov/b.pdf"
    (strftime_timestamp ⟨2026, 10, 12, 9, 5, 3⟩) (by decide)

end Scrapper









